import Mathlib

/-!
# QRLens: a shallow embedding of the capture-to-decode pipeline

This file embeds the QRLens browser extension (a content script that lets
the user draw a selection rectangle, captures the visible tab, crops the
capture, runs a multi-pass QR decode, and presents the result, plus a
background service worker that performs the screenshot) as executable Lean
definitions, and proves the spec's claims about it.

Modelling conventions:
* JavaScript numbers that hold pixel coordinates and densities are `ℚ`
  (the programs only ever add, subtract, multiply, compare and
  `Math.round` them, all exact on rationals).
* `Math.round` is `jsRound : ℚ → ℤ`, i.e. `⌊q + 1/2⌋` (round half up,
  which is what JavaScript does).
* An `ImageData.data` byte array is a `List Nat` (RGBA, 4 bytes per
  pixel, row major); an image is an `Img` carrying width, height and data.
* The external jsQR decoder and the platform URL parser are oracles passed
  as function parameters; the platform screenshot API is an oracle from a
  window scope to a capture outcome.
* DOM effects (which overlay elements exist, which listeners are attached)
  are fields of explicit state records, and each event handler is a state
  transition function translated line by line from the source.
-/

namespace QRLens

/-! ## Geometry: selection rectangles and the crop stage -/

/-- A selection rectangle in viewport logical pixels, as built by the
mouseup listener (`content.js` lines 111–116): `x, y` is the top-left
corner, `w, h` are non-negative extents. -/
structure Rect where
  x : ℚ
  y : ℚ
  w : ℚ
  h : ℚ
deriving DecidableEq, Repr

/-- JavaScript `Math.round`: round half toward positive infinity. -/
def jsRound (q : ℚ) : ℤ := ⌊q + 1/2⌋

/-- The parameters the crop stage passes to `drawImage`
(`content.js` lines 179–195): a source offset and the canvas dimensions. -/
structure CropParams where
  sx : ℤ
  sy : ℤ
  dw : ℤ
  dh : ℤ
deriving DecidableEq, Repr

/-- The crop stage of `processSelection` (`content.js` lines 179–195):
`canvas.width = Math.round(rect.w * dpr)`,
`canvas.height = Math.round(rect.h * dpr)`, and the source offset is
`(Math.round(rect.x * dpr), Math.round(rect.y * dpr))`.  Each coordinate
is scaled and rounded on its own; no minimum is applied anywhere. -/
def cropStage (rect : Rect) (dpr : ℚ) : CropParams :=
  { sx := jsRound (rect.x * dpr)
    sy := jsRound (rect.y * dpr)
    dw := jsRound (rect.w * dpr)
    dh := jsRound (rect.h * dpr) }

/-! ## Selection Controller: the mouseup listener -/

/-- The content-script state the mouseup listener touches
(`content.js` lines 31, 36–43, 107–125): the drag anchor and flag, the
session flag, and which overlay elements are attached.  `toasts` counts
error toasts ever shown, to express "discarded silently". -/
structure SelState where
  dragging : Bool
  startX : ℚ
  startY : ℚ
  active : Bool
  overlayAttached : Bool
  bannerAttached : Bool
  selectionAttached : Bool
  toasts : Nat
deriving DecidableEq, Repr

/-- The mouseup listener (`content.js` lines 107–125): bail out unless
dragging; finalize the rectangle with `Math.min` / `Math.abs`; if
`rect.w < 10 || rect.h < 10`, detach the selection box and return without
calling `processSelection`; otherwise hand the rectangle over (modelled as
`some rect`, the capture request that `processSelection` will issue). -/
def onMouseUp (s : SelState) (cx cy : ℚ) : SelState × Option Rect :=
  if s.dragging = false then (s, none)
  else
    let s1 := { s with dragging := false }
    let rect : Rect :=
      { x := min s.startX cx
        y := min s.startY cy
        w := |cx - s.startX|
        h := |cy - s.startY| }
    if rect.w < 10 ∨ rect.h < 10 then
      ({ s1 with selectionAttached := false }, none)
    else
      (s1, some rect)

/-! ## The binarize transform `toBW` -/

/-- One pixel's black-or-white value (`content.js` lines 283–284):
`avg = (r + g + b) / 3` in real JavaScript arithmetic, then
`avg > 128 ? 255 : 0`. -/
def bwVal (r g b : Nat) : Nat :=
  if (128 : ℚ) < ((r : ℚ) + g + b) / 3 then 255 else 0

/-- The `toBW` loop (`content.js` lines 280–288) over the flat RGBA byte
array, four bytes per step: R, G and B are all replaced by `bwVal r g b`,
the alpha byte is left alone.  The sub-pixel tails reproduce JavaScript's
behaviour on a typed array whose length is not a multiple of four (reads
past the end give `undefined`, making `avg` NaN, so `bw` is 0; writes past
the end are ignored); `ImageData` never produces such tails. -/
def toBW : List Nat → List Nat
  | r :: g :: b :: a :: rest =>
      bwVal r g b :: bwVal r g b :: bwVal r g b :: a :: toBW rest
  | [r, g, b] => [bwVal r g b, bwVal r g b, bwVal r g b]
  | [_, _] => [0, 0]
  | [_] => [0]
  | [] => []

/-- Group a flat RGBA byte list into (R, G, B, A) quadruples, dropping any
incomplete trailing pixel. -/
def pixels : List Nat → List (Nat × Nat × Nat × Nat)
  | r :: g :: b :: a :: rest => (r, g, b, a) :: pixels rest
  | _ => []

/-! ## Images and the decode cascade -/

/-- Read byte `i` of a flat byte array (out of range reads give 0, as a
canvas outside the drawn region is transparent black). -/
def byteAt (d : List Nat) (i : Nat) : Nat := (d.get? i).getD 0

/-- A canvas/`ImageData` pair: dimensions plus the flat RGBA byte array. -/
structure Img where
  width : Nat
  height : Nat
  data : List Nat
deriving DecidableEq, Repr

/-- The four RGBA bytes of pixel `(x, y)` of an image (row-major,
4 bytes per pixel). -/
def pixelBytes (img : Img) (x y : Nat) : List Nat :=
  let base := 4 * (y * img.width + x)
  [byteAt img.data base, byteAt img.data (base + 1),
   byteAt img.data (base + 2), byteAt img.data (base + 3)]

/-- `upscaleCanvas` (`content.js` lines 267–275): a canvas `k` times as
wide and tall, drawn with `imageSmoothingEnabled = false`, i.e.
nearest-neighbor: destination pixel `(x, y)` copies source pixel
`(x / k, y / k)` (integer division). -/
def upscaleCanvas (img : Img) (k : Nat) : Img :=
  { width := img.width * k
    height := img.height * k
    data := (List.range (img.height * k)).flatMap fun y =>
      (List.range (img.width * k)).flatMap fun x =>
        pixelBytes img (x / k) (y / k) }

/-- `toBW` applied to a full `ImageData` (`content.js` lines 280–288): the
byte array is rewritten in place, width and height are untouched. -/
def toBWImage (img : Img) : Img := { img with data := toBW img.data }

/-- The external jsQR decoder (`jsQR(data, width, height, opts)`), an
oracle from a byte array and dimensions to an optional decoded string.
Every call in this program passes `{ inversionAttempts: "attemptBoth" }`,
so the option object is not a parameter of the model. -/
def Decoder : Type := List Nat → Nat → Nat → Option String

/-- One cascade pass (`content.js` lines 239–241 and its three clones):
call jsQR on the image and accept the result only when it is a non-empty
string (`if (result && result.data)` — a present but empty `data` is
falsy and falls through to the next pass). -/
def jsQRPass (dec : Decoder) (img : Img) : Option String :=
  match dec img.data img.width img.height with
  | some s => if s = "" then none else some s
  | none => none

/-- The four decode candidates of `attemptDecode` (`content.js`
lines 234–262), in source order: (1) the crop itself, (2) its 2× upscale,
(3) its binarization, (4) the binarized 3× upscale. -/
def cascadeResults (dec : Decoder) (img : Img) : List (Option String) :=
  [jsQRPass dec img,
   jsQRPass dec (upscaleCanvas img 2),
   jsQRPass dec (toBWImage img),
   jsQRPass dec (toBWImage (upscaleCanvas img 3))]

/-- `attemptDecode` (`content.js` lines 234–262): the four passes are
tried in order, each `return`ing as soon as jsQR yields a non-empty
string; `null` when all four fall through. -/
def attemptDecode (dec : Decoder) (img : Img) : Option String :=
  match jsQRPass dec img with
  | some s => some s
  | none =>
    match jsQRPass dec (upscaleCanvas img 2) with
    | some s => some s
    | none =>
      match jsQRPass dec (toBWImage img) with
      | some s => some s
      | none =>
        match jsQRPass dec (toBWImage (upscaleCanvas img 3)) with
        | some s => some s
        | none => none

/-- `attemptDecode` instrumented with the list of pass numbers that
actually execute before the function returns: each early `return` in the
source skips the passes below it, so a success at pass `k` means exactly
passes `1..k` ran. -/
def attemptDecodeTraced (dec : Decoder) (img : Img) :
    Option String × List Nat :=
  match jsQRPass dec img with
  | some s => (some s, [1])
  | none =>
    match jsQRPass dec (upscaleCanvas img 2) with
    | some s => (some s, [1, 2])
    | none =>
      match jsQRPass dec (toBWImage img) with
      | some s => (some s, [1, 2, 3])
      | none =>
        match jsQRPass dec (toBWImage (upscaleCanvas img 3)) with
        | some s => (some s, [1, 2, 3, 4])
        | none => (none, [1, 2, 3, 4])

/-! ## Result classification (URL-likeness) -/

/-- The test `/^https?:\/\//i.test(decoded)` (part_001 line 242,
`content.js` line 204): the payload starts, case-insensitively, with
`http://` or `https://`. -/
def matchesHttpScheme (s : String) : Bool :=
  "http://".data.isPrefixOf (s.data.map Char.toLower) ||
  "https://".data.isPrefixOf (s.data.map Char.toLower)

/-- Modelled from the spec: the platform URL parser behind `isValidUrl`
(`new URL(string)`, `content.js` lines 305–308) is host-browser code, not
part of this repository.  The spec asks that the string "parses as a
syntactically valid URL"; the model keeps the WHATWG checks that decide
the strings this program builds (`https://` ++ payload): an explicit
`http://`/`https://` scheme, then a nonempty authority before the first
delimiter, containing no forbidden host code point (space and similar).
Userinfo, ports-with-validation and percent escapes are beyond what the
repository exercises. -/
def forbiddenHostChar (c : Char) : Bool :=
  c = ' ' || c = '<' || c = '>' || c = '^' || c = '|' || c = '"' || c = '\t'

/-- Modelled from the spec (see `forbiddenHostChar`): `new URL(s)`
succeeds. -/
def urlParses (s : String) : Bool :=
  let cs := s.data
  let secure := "https://".data.isPrefixOf cs
  let plain := "http://".data.isPrefixOf cs
  (secure || plain) &&
  (let rest := if secure then cs.drop 8 else cs.drop 7
   let host := rest.takeWhile fun c =>
     !(c = '/' || c = '?' || c = '#' || c = '\\' || c = ':')
   !host.isEmpty && host.all fun c => !forbiddenHostChar c)

/-- The classification prologue of `showResultMenu` (part_001
lines 239–249): `url = decoded;` `isUrl = /^https?:\/\//i.test(decoded);`
and when that fails, `tryUrl = "https://" + decoded` is adopted (and the
payload declared url-like) exactly when the platform URL parser accepts
it.  Returns `(isUrl, url)`; the open action is offered iff `isUrl`. -/
def classify (validUrl : String → Bool) (decoded : String) : Bool × String :=
  let url := decoded
  let isUrl := matchesHttpScheme decoded
  if isUrl then (isUrl, url)
  else
    let tryUrl := "https://" ++ decoded
    if validUrl tryUrl then (true, tryUrl)
    else (isUrl, url)

/-! ## Capture Bridge: the background worker's capture handler -/

/-- The platform screenshot API `chrome.tabs.captureVisibleTab`, an oracle
from a scope (`some windowId` = window-scoped, `none` = the
unscoped/default-window call `captureVisibleTab(null)`) to either a data
URL or an error message. -/
def CaptureOracle : Type := Option Nat → Except String String

/-- The capture branch of the background worker's message listener,
promise-based variant with the unscoped fallback (part_000
lines 121–157): `captureVisibleTab(windowId)` first; on rejection, retry
once as `captureVisibleTab(null)`; only when that also rejects is
`{error}` sent back.  The second component records, in order, the scopes
attempted. -/
def handleCapture (cap : CaptureOracle) (windowId : Nat) :
    Except String String × List (Option Nat) :=
  match cap (some windowId) with
  | .ok dataUrl => (.ok dataUrl, [some windowId])
  | .error _ =>
    match cap none with
    | .ok dataUrl => (.ok dataUrl, [some windowId, none])
    | .error m => (.error m, [some windowId, none])

/-- The capture branch in the callback-based variants (part_000
lines 46–61 and 217–233): a single `captureVisibleTab(windowId)` call; on
`lastError` the `{error}` response is sent straight back, with no second
attempt. -/
def handleCaptureNoRetry (cap : CaptureOracle) (windowId : Nat) :
    Except String String × List (Option Nat) :=
  match cap (some windowId) with
  | .ok dataUrl => (.ok dataUrl, [some windowId])
  | .error m => (.error m, [some windowId])

/-! ## Activation guard (re-entrancy) -/

/-- The page-level state the content script's top level touches: the
`window.__qrlens_active` flag, counts of attached overlay / banner / toast
elements and keydown listeners, and the drag flag of any in-flight
session. -/
structure PageState where
  active : Bool
  overlays : Nat
  banners : Nat
  toasts : Nat
  keyListeners : Nat
  dragging : Bool
deriving DecidableEq, Repr

/-- The content script's top level (part_001 lines 16–60, `content.js`
lines 16–43): `if (window.__qrlens_active) return;` — before any element
is created — then set the flag; if the jsQR global is missing (part_001
lines 25–34), show an error toast, clear the flag and stop; otherwise
attach the overlay and the banner and install the keydown listener. -/
def injectContentScript (jsQRAvailable : Bool) (s : PageState) : PageState :=
  if s.active then s
  else if jsQRAvailable = false then
    { s with toasts := s.toasts + 1, active := false }
  else
    { s with active := true
             overlays := s.overlays + 1
             banners := s.banners + 1
             keyListeners := s.keyListeners + 1 }

/-! ## Session machine: cancellation vs. the in-flight capture

The next definitions embed the event interleaving of `processSelection`
(part_001 lines 167–234), the escape handler `onKeyDown` (part_001
lines 147–153) and `cleanup` (part_001 lines 86–94).  A `Sys` records
which QRLens DOM elements are attached, the session flag, whether the
keydown listener is installed, and whether a capture request is in
flight; the `*Created` counters record every element ever constructed, so
"no UI element is created by the resolved continuation" is expressible
even for the loader, which the continuation creates and later removes. -/

structure Sys where
  active : Bool
  keyListener : Bool
  overlay : Bool
  banner : Bool
  selection : Bool
  loader : Bool
  menu : Bool
  toast : Bool
  openOffered : Bool
  pending : Bool
  loadersCreated : Nat
  menusCreated : Nat
  toastsCreated : Nat
deriving DecidableEq, Repr

/-- `cleanup` (part_001 lines 86–94): remove overlay, selection, banner,
any loader wrap, result menu and backdrop, and clear
`window.__qrlens_active`.  (Toasts self-remove on a timer and are not
touched.) -/
def cleanupSys (s : Sys) : Sys :=
  { s with overlay := false, selection := false, banner := false,
           loader := false, menu := false, active := false }

/-- `onKeyDown` for Escape (part_001 lines 147–153): when the listener is
installed, run `cleanup()` and remove the listener.  Note that nothing
here touches `pending`: an in-flight `captureVisibleTab` message cannot
be revoked, and no flag is recorded for the continuation to consult. -/
def pressEscape (s : Sys) : Sys :=
  if s.keyListener then { cleanupSys s with keyListener := false } else s

/-- `processSelection` up to its first suspension (part_001
lines 167–187): detach selection, overlay and banner, wait for the
repaint, and send the `{type: "capture"}` message — now a capture
response is pending. -/
def startCapture (s : Sys) : Sys :=
  { s with selection := false, overlay := false, banner := false,
           pending := true }

/-- The rest of `processSelection`, run when the capture response
resolves (part_001 lines 189–233).  The response is either an error, or a
successful capture whose crop decodes to `none` (no QR found) or to
`some (payload, isUrl)` (the decode result and its classification).  On
success a loader is created, then removed once decoding ends; a decoded
payload opens the result menu (`showResultMenu`, which offers copy always
and open iff `isUrl`) and returns early, skipping `cleanup`; a miss or an
error shows a toast and falls through to `cleanup()`.  Nothing in the
source consults the session flag first: the continuation runs in full
even if Escape already tore the session down. -/
def resolveCapture (s : Sys)
    (res : Except String (Option (String × Bool))) : Sys :=
  if s.pending = false then s
  else
    let s0 := { s with pending := false }
    match res with
    | .error _ =>
        let s1 := { s0 with toast := true,
                            toastsCreated := s0.toastsCreated + 1 }
        { cleanupSys s1 with keyListener := false }
    | .ok none =>
        let s1 := { s0 with loader := true,
                            loadersCreated := s0.loadersCreated + 1 }
        let s2 := { s1 with loader := false, toast := true,
                            toastsCreated := s1.toastsCreated + 1 }
        { cleanupSys s2 with keyListener := false }
    | .ok (some (_, isUrl)) =>
        let s1 := { s0 with loader := true,
                            loadersCreated := s0.loadersCreated + 1 }
        { s1 with loader := false, menu := true,
                  menusCreated := s1.menusCreated + 1,
                  openOffered := isUrl }

/-- The session right after activation and a finished drag: flag set,
listener installed, overlay / banner / selection attached, nothing
pending. -/
def sessionAfterDrag : Sys :=
  { active := true, keyListener := true, overlay := true, banner := true,
    selection := true, loader := false, menu := false, toast := false,
    openOffered := false, pending := false, loadersCreated := 0,
    menusCreated := 0, toastsCreated := 0 }

/-! ## Helper lemmas -/

/-- `bwVal` over ℚ agrees with the integer threshold `r + g + b > 384`
(the division by 3 is exact on rationals). -/
theorem bwVal_eq_nat (r g b : Nat) :
    bwVal r g b = if 384 < r + g + b then 255 else 0 := by
  unfold bwVal
  rcases lt_or_le (384 : ℚ) (r + g + b) with h | h
  · rw [if_pos, if_pos]
    · exact_mod_cast h
    · linarith
  · rw [if_neg, if_neg]
    · exact_mod_cast not_lt.mpr h
    · intro hc
      linarith

/-- A pixel already forced to uniform 0 or 255 is a fixed point of the
threshold. -/
theorem bwVal_idem (r g b : Nat) :
    bwVal (bwVal r g b) (bwVal r g b) (bwVal r g b) = bwVal r g b := by
  simp only [bwVal_eq_nat]
  rcases lt_or_le 384 (r + g + b) with h | h
  · rw [if_pos h]; norm_num
  · rw [if_neg (not_lt.mpr h)]; norm_num

/-- The `toBW` loop never changes the length of the byte array. -/
theorem toBW_length (l : List Nat) : (toBW l).length = l.length := by
  induction l using toBW.induct <;> simp [toBW, *]

/-- The `toBW` loop leaves every alpha byte (index ≡ 3 mod 4) in place. -/
theorem toBW_get_alpha : ∀ (l : List Nat) (i : Nat), i % 4 = 3 →
    (toBW l).get? i = l.get? i := by
  intro l
  induction l using toBW.induct with
  | case1 r g b a rest ih =>
    intro i hi
    obtain ⟨k, rfl⟩ : ∃ k, i = 4 * k + 3 := ⟨i / 4, by omega⟩
    match k with
    | 0 => simp [toBW]
    | Nat.succ k =>
      have h4 : 4 * (k + 1) + 3 = (4 * k + 3) + 1 + 1 + 1 + 1 := by ring
      rw [h4]
      simp only [toBW, List.get?_cons_succ]
      exact ih (4 * k + 3) (by omega)
  | case2 r g b =>
    intro i hi
    rw [List.get?_eq_none.mpr (by simp [toBW]; omega),
        List.get?_eq_none.mpr (by simp; omega)]
  | case3 x y =>
    intro i hi
    rw [List.get?_eq_none.mpr (by simp [toBW]; omega),
        List.get?_eq_none.mpr (by simp; omega)]
  | case4 x =>
    intro i hi
    rw [List.get?_eq_none.mpr (by simp [toBW]; omega),
        List.get?_eq_none.mpr (by simp; omega)]
  | case5 =>
    intro i hi
    simp [toBW]

/-! ## Claim theorems -/

/-- C1: for every decoder oracle and cropped buffer, `attemptDecode`
returns the result of the first of its four passes — (1) direct,
(2) 2× nearest-neighbor upscale, (3) binarize, (4) 3× upscale then
binarize, in that fixed order — whose decoder call yields a non-empty
string (first conjunct: the result is `findSome?` over the pass results
in source order); the instrumented run shows that a success at pass `k`
executes exactly passes `1..k` and nothing later (second conjunct); and
when all four passes yield nothing the result is `none`, not an error
(third conjunct). -/
theorem attemptDecode_first_nonempty_in_order (dec : Decoder) (img : Img) :
    attemptDecode dec img = (cascadeResults dec img).findSome? id ∧
    attemptDecodeTraced dec img =
      (attemptDecode dec img,
        (List.range
          (min 4 (((cascadeResults dec img).takeWhile Option.isNone).length + 1))).map
          (· + 1)) ∧
    ((∀ r ∈ cascadeResults dec img, r = none) → attemptDecode dec img = none) := by
  cases h1 : jsQRPass dec img with
  | some s =>
    refine ⟨?_, ?_, ?_⟩ <;>
      simp [attemptDecode, attemptDecodeTraced, cascadeResults, h1, List.range_succ]
  | none =>
    cases h2 : jsQRPass dec (upscaleCanvas img 2) with
    | some s =>
      refine ⟨?_, ?_, ?_⟩ <;>
        simp [attemptDecode, attemptDecodeTraced, cascadeResults, h1, h2, List.range_succ]
    | none =>
      cases h3 : jsQRPass dec (toBWImage img) with
      | some s =>
        refine ⟨?_, ?_, ?_⟩ <;>
          simp [attemptDecode, attemptDecodeTraced, cascadeResults, h1, h2, h3,
            List.range_succ]
      | none =>
        cases h4 : jsQRPass dec (toBWImage (upscaleCanvas img 3)) with
        | some s =>
          refine ⟨?_, ?_, ?_⟩ <;>
            simp [attemptDecode, attemptDecodeTraced, cascadeResults, h1, h2, h3, h4,
              List.range_succ]
        | none =>
          refine ⟨?_, ?_, ?_⟩ <;>
            simp [attemptDecode, attemptDecodeTraced, cascadeResults, h1, h2, h3, h4,
              List.range_succ]

/-- Witness for C1: a 1×1 crop and a decoder that only recognizes the
width-3 buffer (the binarized 3× upscale): passes 1–3 fail, pass 4 is
returned exactly, and the trace shows all four passes ran. -/
theorem attemptDecode_first_nonempty_in_order_witness :
    attemptDecode (fun _ w _ => if w = 3 then some "hit" else none)
        ⟨1, 1, [10, 10, 10, 255]⟩ = some "hit" ∧
    attemptDecodeTraced (fun _ w _ => if w = 3 then some "hit" else none)
        ⟨1, 1, [10, 10, 10, 255]⟩ = (some "hit", [1, 2, 3, 4]) := by
  have h := attemptDecode_first_nonempty_in_order
    (fun _ w _ => if w = 3 then some "hit" else none) ⟨1, 1, [10, 10, 10, 255]⟩
  refine ⟨h.1.trans (by decide), (h.2.1.trans ?_)⟩
  rw [h.1]
  decide

/-- C2: a finalized drag whose normalized width or height is under 10
logical pixels issues no capture request, surfaces no toast, leaves the
session flag and the overlay/banner (the selection surface) in place, and
only ends the drag, so the user can redraw; and this holds exhaustively
at every boundary extent 0..10 (second conjunct, with the sub-10 cases
discarded). -/
theorem small_selection_issues_no_capture :
    (∀ (s : SelState) (cx cy : ℚ), s.dragging = true →
      |cx - s.startX| < 10 ∨ |cy - s.startY| < 10 →
      (onMouseUp s cx cy).2 = none ∧
      (onMouseUp s cx cy).1.active = s.active ∧
      (onMouseUp s cx cy).1.overlayAttached = s.overlayAttached ∧
      (onMouseUp s cx cy).1.bannerAttached = s.bannerAttached ∧
      (onMouseUp s cx cy).1.toasts = s.toasts ∧
      (onMouseUp s cx cy).1.dragging = false) ∧
    (∀ w h : Fin 11, (w : ℕ) < 10 ∨ (h : ℕ) < 10 →
      (onMouseUp ⟨true, 0, 0, true, true, true, true, 0⟩
        ((w : ℕ) : ℚ) ((h : ℕ) : ℚ)).2 = none) := by
  have main : ∀ (s : SelState) (cx cy : ℚ), s.dragging = true →
      |cx - s.startX| < 10 ∨ |cy - s.startY| < 10 →
      (onMouseUp s cx cy).2 = none ∧
      (onMouseUp s cx cy).1.active = s.active ∧
      (onMouseUp s cx cy).1.overlayAttached = s.overlayAttached ∧
      (onMouseUp s cx cy).1.bannerAttached = s.bannerAttached ∧
      (onMouseUp s cx cy).1.toasts = s.toasts ∧
      (onMouseUp s cx cy).1.dragging = false := by
    intro s cx cy hd hsmall
    simp only [onMouseUp, hd]
    rw [if_neg (by simp), if_pos hsmall]
    simp
  refine ⟨main, fun w h hwh => (main _ _ _ rfl ?_).1⟩
  rcases hwh with hw | hh
  · left
    rw [sub_zero, abs_of_nonneg (by positivity)]
    exact_mod_cast hw
  · right
    rw [sub_zero, abs_of_nonneg (by positivity)]
    exact_mod_cast hh

/-- Witness for C2: a 3×20 drag from the origin is discarded with no
capture request and the session flag still set. -/
theorem small_selection_issues_no_capture_witness :
    (onMouseUp ⟨true, 0, 0, true, true, true, true, 0⟩ 3 20).2 = none ∧
    (onMouseUp ⟨true, 0, 0, true, true, true, true, 0⟩ 3 20).1.active = true := by
  have h := small_selection_issues_no_capture.1
    ⟨true, 0, 0, true, true, true, true, 0⟩ 3 20 rfl (Or.inl (by norm_num))
  exact ⟨h.1, h.2.1⟩

/-- C3 (refuting the claim: this is the divergence): Escape during the
in-flight capture does clear the session flag, but `processSelection` has
no cancellation check after its `await`, so when the capture response
later resolves with a decodable payload the continuation still runs: it
creates the loader, then the result menu with its copy/open actions, on a
session that is already `Idle` — the late resolution is acted upon, not
discarded. -/
theorem late_capture_resolution_resurrects_ui :
    (pressEscape (startCapture sessionAfterDrag)).active = false ∧
    (pressEscape (startCapture sessionAfterDrag)).menu = false ∧
    (pressEscape (startCapture sessionAfterDrag)).loader = false ∧
    (pressEscape (startCapture sessionAfterDrag)).pending = true ∧
    (resolveCapture (pressEscape (startCapture sessionAfterDrag))
        (.ok (some ("https://example.com", true)))).active = false ∧
    (resolveCapture (pressEscape (startCapture sessionAfterDrag))
        (.ok (some ("https://example.com", true)))).menu = true ∧
    (resolveCapture (pressEscape (startCapture sessionAfterDrag))
        (.ok (some ("https://example.com", true)))).openOffered = true ∧
    (resolveCapture (pressEscape (startCapture sessionAfterDrag))
        (.ok (some ("https://example.com", true)))).loadersCreated = 1 ∧
    (resolveCapture (pressEscape (startCapture sessionAfterDrag))
        (.ok (some ("https://example.com", true)))).menusCreated = 1 := by
  decide

/-- C4 (counterexample): the crop stage applies no 1×1 minimum: the legal
rectangle 10×10 at pixel density 1/25 produces output width
`Math.round(10 · 1/25) = 0`, below the claimed minimum of 1. -/
theorem cropStage_no_minimum_dimension :
    (cropStage ⟨0, 0, 10, 10⟩ (1/25)).dw = 0 ∧
    ¬(1 ≤ (cropStage ⟨0, 0, 10, 10⟩ (1/25)).dw) := by
  constructor <;> simp only [cropStage, jsRound] <;> norm_num

/-- C4 (amended): the crop stage scales and rounds each coordinate
independently — the source offset is
`(round(x·d), round(y·d))` and the output dimensions are exactly
`round(w·d) × round(h·d)` with no minimum applied; a dimension depends
only on its own extent and the density; rect {x:10, y:10, w:33, h:33} at
density 2 yields a 66×66 output at source offset (20, 20); and
rounding each coordinate is observably different from rounding a combined
product (last conjunct). -/
theorem cropStage_rounds_each_coordinate :
    (∀ (rect : Rect) (dpr : ℚ), cropStage rect dpr =
      { sx := jsRound (rect.x * dpr), sy := jsRound (rect.y * dpr),
        dw := jsRound (rect.w * dpr), dh := jsRound (rect.h * dpr) }) ∧
    (∀ (r1 r2 : Rect) (dpr : ℚ), r1.w = r2.w →
      (cropStage r1 dpr).dw = (cropStage r2 dpr).dw) ∧
    cropStage ⟨10, 10, 33, 33⟩ 2 = ⟨20, 20, 66, 66⟩ ∧
    (cropStage ⟨1, 0, 1, 1⟩ (1/2)).sx + (cropStage ⟨1, 0, 1, 1⟩ (1/2)).dw ≠
      jsRound ((1 + 1) * (1/2)) := by
  refine ⟨fun rect dpr => rfl, fun r1 r2 dpr h => by simp [cropStage, h], ?_, ?_⟩
  · simp only [cropStage, jsRound]
    norm_num
  · simp only [cropStage, jsRound]
    norm_num

/-- Witness for C4 (amended): two rectangles sharing only their width get
the same output width at the same density. -/
theorem cropStage_rounds_each_coordinate_witness :
    (cropStage ⟨0, 0, 33, 7⟩ 2).dw = (cropStage ⟨10, 10, 33, 33⟩ 2).dw :=
  cropStage_rounds_each_coordinate.2.1 ⟨0, 0, 33, 7⟩ ⟨10, 10, 33, 33⟩ 2 rfl

/-- C5: a payload is classified url-like iff it matches `^https?://`
case-insensitively (then used verbatim) or prefixing `https://` yields a
string the URL parser accepts (then the prefixed string is used); with
the modelled platform parser, "HTTPS://Example.com/x" is url-like
verbatim, "example.com" is url-like via the prefix, and "Hello world" is
not url-like (so no open action is offered, the first component being
what gates the open button). -/
theorem url_classification (valid : String → Bool) (s : String) :
    ((classify valid s).1 = true ↔
      (matchesHttpScheme s = true ∨ valid ("https://" ++ s) = true)) ∧
    (matchesHttpScheme s = true → classify valid s = (true, s)) ∧
    (matchesHttpScheme s = false → valid ("https://" ++ s) = true →
      classify valid s = (true, "https://" ++ s)) ∧
    (matchesHttpScheme s = false → valid ("https://" ++ s) = false →
      classify valid s = (false, s)) ∧
    classify urlParses "HTTPS://Example.com/x" = (true, "HTTPS://Example.com/x") ∧
    classify urlParses "example.com" = (true, "https://example.com") ∧
    classify urlParses "Hello world" = (false, "Hello world") := by
  refine ⟨?_, ?_, ?_, ?_, by decide, by decide, by decide⟩ <;>
    cases hm : matchesHttpScheme s <;>
      cases hv : valid ("https://" ++ s) <;>
        simp [classify, hm, hv]

/-- Witness for C5: a plain-text payload under a parser that rejects
everything is classified not url-like and kept verbatim. -/
theorem url_classification_witness :
    classify (fun _ => false) "plain text" = (false, "plain text") :=
  (url_classification (fun _ => false) "plain text").2.2.2.1 (by decide) rfl

/-- C6 (counterexample): the callback-based capture handler that the
repository also ships surfaces the terminal error after the single
window-scoped attempt — the unscoped/default-window variant is never
tried, so under it the claim "retries exactly once using an unscoped
variant before surfacing a terminal error" is false. -/
theorem noretry_capture_handler_skips_unscoped_retry :
    handleCaptureNoRetry (fun _ => .error "Tab capture failed") 7
      = (.error "Tab capture failed", [some 7]) ∧
    none ∉ (handleCaptureNoRetry (fun _ => .error "Tab capture failed") 7).2 := by
  constructor
  · rfl
  · simp [handleCaptureNoRetry]

/-- C6 (amended): in the promise-based capture handler, a capture request
whose window-scoped attempt fails is retried exactly once with the
unscoped/default-window call, in that order, before any terminal error;
a terminal error is returned only after both attempts have failed (last
conjunct). -/
theorem capture_handler_retries_unscoped_once (cap : CaptureOracle) (wid : Nat) :
    (∀ u, cap (some wid) = .ok u →
      handleCapture cap wid = (.ok u, [some wid])) ∧
    (∀ m u, cap (some wid) = .error m → cap none = .ok u →
      handleCapture cap wid = (.ok u, [some wid, none])) ∧
    (∀ m m2, cap (some wid) = .error m → cap none = .error m2 →
      handleCapture cap wid = (.error m2, [some wid, none])) ∧
    (∀ m, (handleCapture cap wid).1 = .error m →
      (∃ m1, cap (some wid) = .error m1) ∧ cap none = .error m) := by
  cases h1 : cap (some wid) <;> cases h2 : cap none <;>
    simp [handleCapture, h1, h2]

/-- Witness for C6 (amended): a window-scoped failure followed by an
unscoped success returns the retried capture after attempting both
scopes in order. -/
theorem capture_handler_retries_unscoped_once_witness :
    handleCapture
      (fun sc => match sc with
        | some _ => Except.error "window capture denied"
        | none => Except.ok "dataUrl")
      7 = (Except.ok "dataUrl", [some 7, none]) :=
  (capture_handler_retries_unscoped_once _ 7).2.1 "window capture denied" "dataUrl" rfl rfl

/-- C7: the `toBW` loop maps every pixel of its input buffer to the
threshold of its luminance `(R+G+B)/3` against the midpoint — above 128
all of R, G, B become 255, otherwise all become 0 (`bwVal`, one uniform
value) — and keeps the alpha sample: grouped into pixels, the output is
exactly the per-pixel map of that threshold. -/
theorem toBW_thresholds_every_pixel (l : List Nat) :
    pixels (toBW l) = (pixels l).map
      (fun p => (bwVal p.1 p.2.1 p.2.2.1, bwVal p.1 p.2.1 p.2.2.1,
                 bwVal p.1 p.2.1 p.2.2.1, p.2.2.2)) := by
  induction l using toBW.induct with
  | case1 r g b a rest ih => simp [toBW, pixels, ih]
  | case2 r g b => simp [toBW, pixels]
  | case3 x y => simp [toBW, pixels]
  | case4 x => simp [toBW, pixels]
  | case5 => simp [toBW, pixels]

/-- C8: when the active-session flag is already set, a second activation
of the content script is a no-op: the whole page state — the flag, the
overlay/banner/toast element counts, the keydown listeners, and the
in-flight drag — is returned unchanged, whether or not the decoder
library is present. -/
theorem second_activation_is_noop (jsQRAvailable : Bool) (s : PageState)
    (h : s.active = true) : injectContentScript jsQRAvailable s = s := by
  simp [injectContentScript, h]

/-- Witness for C8: re-activating over a live session (one overlay, one
banner, a drag in progress) changes nothing. -/
theorem second_activation_is_noop_witness :
    injectContentScript true
      { active := true, overlays := 1, banners := 1, toasts := 0,
        keyListeners := 1, dragging := true } =
      { active := true, overlays := 1, banners := 1, toasts := 0,
        keyListeners := 1, dragging := true } :=
  second_activation_is_noop true _ rfl

/-- C9: the binarize transform is idempotent — applying `toBW` twice
yields the same byte array as applying it once, because a binarized pixel
is uniform 0 or 255 and the threshold maps both back to themselves. -/
theorem toBW_idempotent (l : List Nat) : toBW (toBW l) = toBW l := by
  induction l using toBW.induct with
  | case1 r g b a rest ih => simp [toBW, bwVal_idem, ih]
  | case2 r g b => simp [toBW, bwVal_idem]
  | case3 x y => simp [toBW, bwVal_eq_nat]
  | case4 x => simp [toBW, bwVal_eq_nat]
  | case5 => simp [toBW]

/-- C10: the binarize transform writes only the R, G and B channels: the
byte array keeps its length, every alpha byte (index ≡ 3 mod 4) is
unchanged, and on a full image the width and height are untouched. -/
theorem toBW_preserves_alpha_and_dimensions :
    (∀ (l : List Nat), (toBW l).length = l.length) ∧
    (∀ (l : List Nat) (i : Nat), i % 4 = 3 → (toBW l).get? i = l.get? i) ∧
    (∀ (img : Img), (toBWImage img).width = img.width ∧
      (toBWImage img).height = img.height ∧
      (toBWImage img).data.length = img.data.length) :=
  ⟨toBW_length, toBW_get_alpha,
   fun img => ⟨rfl, rfl, toBW_length img.data⟩⟩

/-- Witness for C10: the alpha byte 9 of a concrete one-pixel buffer
survives binarization. -/
theorem toBW_preserves_alpha_and_dimensions_witness :
    (toBW [1, 2, 3, 9]).get? 3 = some 9 :=
  (toBW_preserves_alpha_and_dimensions.2.1 [1, 2, 3, 9] 3 rfl).trans rfl

end QRLens
